import Mathlib

/-!
Verification of the Token-Based Authentication and Layered Authorization Core
of the fast_api_review repository.

The development shallowly embeds the authentication code of the lessons
`30securityoauthjwt.py` (bcrypt password hashing, JWT issuance/validation),
`29securitysimpleOauth.py` (simple OAuth2 password flow),
`25globaldependences.py` (application-wide dependency checks) and the `app/`
package (`main_app.py`, `dependencies.py`, `routers/items.py`).

External libraries the source calls (`bcrypt`, PyJWT) are modelled by pure
functions that capture their interface behaviour: bcrypt hashes are
self-contained strings embedding the salt, `bcrypt.checkpw` recomputes the
digest from the embedded salt and raises ValueError on a malformed hash,
`jwt.decode` checks the signature (key and algorithm) before the `exp` claim,
rejecting tokens whose expiry is not in the future.  Randomness (`gensalt`)
is modelled by an explicit entropy argument: each call of the source draws a
fresh value.  Python exceptions are modelled as `Except` error values; the
clock is an explicit integer timestamp argument.
-/

namespace Spec2Proof

/-- An HTTP exception as raised by the source's FastAPI handlers: status code,
detail message, and whether a `WWW-Authenticate: Bearer` header is attached. -/
structure HTTPExc where
  status : Nat
  detail : String
  bearerHeader : Bool
  deriving DecidableEq, Repr

/-- Decidable equality for `Except`, so that concrete runs of the embedded
fallible functions can be evaluated by `decide`. -/
instance exceptDecEq {ε α : Type} [DecidableEq ε] [DecidableEq α] :
    DecidableEq (Except ε α) := fun a b =>
  match a, b with
  | Except.error e, Except.error f =>
    if h : e = f then Decidable.isTrue (congrArg Except.error h)
    else Decidable.isFalse (fun hc => h (by cases hc; rfl))
  | Except.ok x, Except.ok y =>
    if h : x = y then Decidable.isTrue (congrArg Except.ok h)
    else Decidable.isFalse (fun hc => h (by cases hc; rfl))
  | Except.error _, Except.ok _ => Decidable.isFalse (fun hc => Except.noConfusion hc)
  | Except.ok _, Except.error _ => Decidable.isFalse (fun hc => Except.noConfusion hc)

/-- Python exceptions that the embedded bcrypt calls can raise:
`ValueError("Invalid salt")` from `bcrypt.hashpw`/`bcrypt.checkpw` on a
malformed hash, and `AttributeError` from calling `.encode` on `None`. -/
inductive PyError where
  | valueErrorInvalidSalt
  | attributeError
  deriving DecidableEq, Repr

/-- Truthiness of a Python `Union[bool, None]` value: `None` and `False` are
falsy, only `True` is truthy. -/
def pythonTruthy : Option Bool → Bool
  | some b => b
  | none => false

/-! ### Model of the bcrypt library (imported by `30securityoauthjwt.py`) -/

/-- The `$2b$12$` algorithm/cost marker that opens every bcrypt hash produced
with the source's default `bcrypt.gensalt()` (cost factor 12). -/
def bcryptHeader : List Char := ['$', '2', 'b', '$', '1', '2', '$']

/-- Model of the bcrypt digest: a deterministic pure function of the password
and the salt.  Only determinism and salt-dependence matter to the claims. -/
def bcryptDigest (password : String) (salt : Nat) : List Char :=
  (toString (password.data.foldl (fun a c => a * 131 + c.toNat + salt + 1) 7)).data

/-- Model of `bcrypt.gensalt()`: the salt is the fresh randomness drawn at the
call.  Two independent calls correspond to two distinct entropy draws. -/
def gensalt (entropy : Nat) : Nat := entropy

/-- Model of `bcrypt.hashpw`: a self-contained hash string embedding the
algorithm/cost marker, the salt, and the digest of (password, salt). -/
def hashpw (password : String) (salt : Nat) : String :=
  ⟨bcryptHeader ++ List.replicate salt 'a' ++ '$' :: bcryptDigest password salt⟩

/-- Parse a bcrypt hash string into its salt and digest; `none` when the string
is not a well-formed hash (the case where the bcrypt library raises
`ValueError("Invalid salt")`). -/
def parseBcryptHash (h : String) : Option (Nat × List Char) :=
  match h.data with
  | '$' :: '2' :: 'b' :: '$' :: '1' :: '2' :: '$' :: rest =>
    let saltLen := (rest.takeWhile (fun c => c == 'a')).length
    match rest.drop saltLen with
    | '$' :: digest => some (saltLen, digest)
    | _ => none
  | _ => none

/-- Model of `bcrypt.checkpw(password, hashed)`: raises
`ValueError("Invalid salt")` when the stored hash is malformed, otherwise
recomputes the digest with the salt embedded in the stored hash and compares. -/
def checkpw (password hashed : String) : Except PyError Bool :=
  match parseBcryptHash hashed with
  | none => Except.error PyError.valueErrorInvalidSalt
  | some (salt, digest) => Except.ok (bcryptDigest password salt == digest)

/-! ### src/30securityoauthjwt.py -/

namespace Lesson30

/-- Configuration constant `SECRET_KEY` of the source. -/
def SECRET_KEY : String :=
  "09d25e094faa6ca2556c818166b7a9563b93f7099f6f0f4caa6cf63b88e8d3e7"

/-- Configuration constant `ALGORITHM` of the source. -/
def ALGORITHM : String := "HS256"

/-- Configuration constant `ACCESS_TOKEN_EXPIRE_MINUTES` of the source. -/
def ACCESS_TOKEN_EXPIRE_MINUTES : Nat := 30

/-- The `UserInDB` pydantic model of lesson 30: `User` plus the stored hash.
All fields except `username` default to `None` in the source. -/
structure UserInDB where
  username : String
  email : Option String
  full_name : Option String
  disabled : Option Bool
  hashed_password : Option String
  deriving DecidableEq, Repr

/-- Source `verify_password`: a direct call of `bcrypt.checkpw` with no
exception handling, so a malformed stored hash propagates bcrypt's
ValueError. -/
def verify_password (plain_password hashed_password : String) : Except PyError Bool :=
  checkpw plain_password hashed_password

/-- Source `get_password_hash`: `bcrypt.hashpw(password, bcrypt.gensalt())`,
with the randomness of `gensalt` made explicit as an entropy argument. -/
def get_password_hash (password : String) (entropy : Nat) : String :=
  hashpw password (gensalt entropy)

/-- The single record of `fake_users_db`.  The stored literal
`$2b$12$EixZaYVK1fsbw1ZfbX3OXePaWxn96p36WQoeG6Lruj3vjPGga31lW` is, per the
source's own documentation, the bcrypt hash of `"secret"`; its modelled
counterpart is `hashpw "secret" 5` (an arbitrary concrete salt). -/
def johndoe : UserInDB :=
  { username := "johndoe"
    email := some "johndoe@example.com"
    full_name := some "John Doe"
    disabled := some false
    hashed_password := some (hashpw "secret" 5) }

/-- Source `fake_users_db`: a one-entry dictionary keyed by username. -/
def fake_users_db : List (String × UserInDB) := [("johndoe", johndoe)]

/-- Source `get_user`: `db.get(username)`, wrapping the record when found. -/
def get_user (db : List (String × UserInDB)) (username : String) : Option UserInDB :=
  db.lookup username

/-- Source `authenticate_user`: looks the user up and, only when found,
verifies the password; returns `False` (here `none`) on either failure.  When
the record's `hashed_password` is `None`, Python's `hashed_password.encode`
inside the verify call raises AttributeError, modelled as the corresponding
error. -/
def authenticate_user (db : List (String × UserInDB)) (username password : String) :
    Except PyError (Option UserInDB) :=
  match get_user db username with
  | none => Except.ok none
  | some user =>
    match user.hashed_password with
    | none => Except.error PyError.attributeError
    | some h =>
      (verify_password password h).map (fun ok => if ok then some user else none)

/-- Observation of `authenticate_user` that additionally records the argument
pairs of every `verify_password` call the source makes on that run. -/
def authenticate_user_traced (db : List (String × UserInDB)) (username password : String) :
    Except PyError (Option UserInDB) × List (String × Option String) :=
  match get_user db username with
  | none => (Except.ok none, [])
  | some user =>
    (match user.hashed_password with
     | none => Except.error PyError.attributeError
     | some h =>
       (verify_password password h).map (fun ok => if ok then some user else none),
     [(password, user.hashed_password)])

end Lesson30

/-! ### Model of the PyJWT library (imported by `30securityoauthjwt.py`) -/

/-- The claims dictionary carried by a token: the `sub` and `exp` entries the
source reads and writes.  Timestamps are absolute integer seconds. -/
structure JwtClaims where
  sub : Option String
  exp : Option Int
  deriving DecidableEq, Repr

/-- An inbound token string: either not a decodable JWT at all, or a signed
token recording the claims, the signing key and the algorithm used. -/
inductive Jwt where
  | malformed (raw : String)
  | signed (claims : JwtClaims) (key : String) (alg : String)
  deriving DecidableEq, Repr

/-- The `InvalidTokenError` subclasses PyJWT raises: `DecodeError` for a
malformed token, `InvalidSignatureError` for a signature made with another key
or algorithm, `ExpiredSignatureError` for an `exp` claim not in the future. -/
inductive JwtError where
  | decodeError
  | invalidSignature
  | expiredSignature
  deriving DecidableEq, Repr

/-- Model of `jwt.encode(payload, key, algorithm)`. -/
def jwtEncode (claims : JwtClaims) (key : String) (alg : String) : Jwt :=
  Jwt.signed claims key alg

/-- Model of `jwt.decode(token, key, algorithms)` with PyJWT semantics:
decoding and signature are checked before claims, and with zero leeway an
`exp` claim that is not strictly in the future raises ExpiredSignatureError. -/
def jwtDecode (token : Jwt) (key : String) (algorithms : List String) (now : Int) :
    Except JwtError JwtClaims :=
  match token with
  | Jwt.malformed _ => Except.error JwtError.decodeError
  | Jwt.signed claims k alg =>
    if k = key ∧ alg ∈ algorithms then
      match claims.exp with
      | some exp => if exp ≤ now then Except.error JwtError.expiredSignature else Except.ok claims
      | none => Except.ok claims
    else Except.error JwtError.invalidSignature

namespace Lesson30

/-- Source `create_access_token`: copies the payload, sets `exp` to `now`
plus `expires_delta` (default `ACCESS_TOKEN_EXPIRE_MINUTES` minutes; durations
in seconds), and signs with `SECRET_KEY`/`ALGORITHM`. -/
def create_access_token (data : JwtClaims) (expires_delta : Option Int) (now : Int) : Jwt :=
  let expire : Int :=
    match expires_delta with
    | some delta => now + delta
    | none => now + (ACCESS_TOKEN_EXPIRE_MINUTES : Int) * 60
  jwtEncode { data with exp := some expire } SECRET_KEY ALGORITHM

/-- Source `get_current_user`: decodes the bearer token, requires a `sub`
claim and a matching directory record; every failure raises the same
`HTTPException(401, "Invalid authentication credentials")` with a
`WWW-Authenticate: Bearer` header. -/
def get_current_user (token : Jwt) (now : Int) : Except HTTPExc UserInDB :=
  match jwtDecode token SECRET_KEY [ALGORITHM] now with
  | Except.error _ => Except.error ⟨401, "Invalid authentication credentials", true⟩
  | Except.ok payload =>
    match payload.sub with
    | none => Except.error ⟨401, "Invalid authentication credentials", true⟩
    | some username =>
      match get_user fake_users_db username with
      | none => Except.error ⟨401, "Invalid authentication credentials", true⟩
      | some user => Except.ok user

/-- Source `get_current_active_user`: `if current_user.disabled:` denies with
`HTTPException(400, "Inactive user")`; Python truthiness, so `None` passes. -/
def get_current_active_user (current_user : UserInDB) : Except HTTPExc UserInDB :=
  if pythonTruthy current_user.disabled then
    Except.error ⟨400, "Inactive user", true⟩
  else Except.ok current_user

/-- The `{"access_token": ..., "token_type": "bearer"}` response shape. -/
structure TokenResponse where
  access_token : Jwt
  token_type : String
  deriving DecidableEq, Repr

/-- A failure of the login endpoint: an `HTTPException` raised by the handler,
or a Python exception propagating out of the bcrypt call. -/
inductive AppFailure where
  | http (e : HTTPExc)
  | py (e : PyError)
  deriving DecidableEq, Repr

/-- Source `login_for_access_token`: authenticates the form credentials, and
on any authentication failure raises
`HTTPException(401, "Invalid credentials")` with a Bearer header; on success
issues a token whose `sub` is the account's username, with default expiry. -/
def login_for_access_token (db : List (String × UserInDB)) (username password : String)
    (now : Int) : Except AppFailure TokenResponse :=
  match authenticate_user db username password with
  | Except.error e => Except.error (AppFailure.py e)
  | Except.ok none => Except.error (AppFailure.http ⟨401, "Invalid credentials", true⟩)
  | Except.ok (some user) =>
    Except.ok ⟨create_access_token { sub := some user.username, exp := none } none now, "bearer"⟩

end Lesson30

/-! ### src/29securitysimpleOauth.py -/

namespace Lesson29

/-- The `UserInDB` pydantic model of lesson 29 (`hashed_password` is a plain
string there). -/
structure UserInDB where
  username : String
  email : Option String
  full_name : Option String
  disabled : Option Bool
  hashed_password : String
  deriving DecidableEq, Repr

/-- Source `fake_hash_password`: prepends `"fakehashed"`. -/
def fake_hash_password (password : String) : String := "fakehashed" ++ password

/-- The `johndoe` record of lesson 29's `fake_users_db`. -/
def johndoe : UserInDB :=
  { username := "johndoe"
    email := some "johndoe@example.com"
    full_name := some "John Doe"
    disabled := some false
    hashed_password := "fakehashedsecret" }

/-- The `alice` record of lesson 29's `fake_users_db` (disabled). -/
def alice : UserInDB :=
  { username := "alice"
    email := some "alice@example.com"
    full_name := some "Alice Wonderson"
    disabled := some true
    hashed_password := "fakehashedsecret2" }

/-- Source `fake_users_db` of lesson 29. -/
def fake_users_db : List (String × UserInDB) := [("johndoe", johndoe), ("alice", alice)]

/-- Source `get_user` of lesson 29: `if username in db: return UserInDB(**db[username])`. -/
def get_user (db : List (String × UserInDB)) (username : String) : Option UserInDB :=
  db.lookup username

/-- Source `fake_decode_token`: looks the presented token string up directly
as a username in the directory — no signature, no expiry. -/
def fake_decode_token (token : String) : Option UserInDB :=
  get_user fake_users_db token

/-- Source `get_current_user` of lesson 29: resolves the token and raises
`HTTPException(401, "Invalid authentication credentials")` (no Bearer header)
when it resolves to no user. -/
def get_current_user (token : String) : Except HTTPExc UserInDB :=
  match fake_decode_token token with
  | none => Except.error ⟨401, "Invalid authentication credentials", false⟩
  | some user => Except.ok user

/-- Source `get_current_active_user` of lesson 29: denies with
`HTTPException(400, "Inactive user")` when `current_user.disabled` is truthy. -/
def get_current_active_user (current_user : UserInDB) : Except HTTPExc UserInDB :=
  if pythonTruthy current_user.disabled then
    Except.error ⟨400, "Inactive user", false⟩
  else Except.ok current_user

/-- The token response of lesson 29's `login`: the access token is a plain
string (the username). -/
structure TokenResponse where
  access_token : String
  token_type : String
  deriving DecidableEq, Repr

/-- Source `login` of lesson 29: raises the same
`HTTPException(401, "Incorrect username or password")` when the user is
missing or the fake hash of the password mismatches; on success returns the
account's username as the access token. -/
def login (db : List (String × UserInDB)) (username password : String) :
    Except HTTPExc TokenResponse :=
  match get_user db username with
  | none => Except.error ⟨401, "Incorrect username or password", false⟩
  | some user =>
    if fake_hash_password password = user.hashed_password then
      Except.ok ⟨user.username, "bearer"⟩
    else Except.error ⟨401, "Incorrect username or password", false⟩

end Lesson29

/-! ### The authorization pipeline and its check lists

The repository declares ordered dependency lists
(`FastAPI(dependencies=[...])`, `APIRouter(dependencies=[...])`,
`include_router(..., dependencies=[...])`); the engine that runs them in
order is the web framework, which is not part of the repository's sources,
so the pipeline's run function is modelled from the specification. -/

/-- Outcome of one authorization check on one session: pass, or abort with
the status and detail of the raised HTTPException. -/
inductive CheckOutcome where
  | pass
  | deny (status : Nat) (detail : String)
  deriving DecidableEq, Repr

/-- A named authorization check over sessions of type `σ`. -/
structure AuthCheck (σ : Type) where
  name : String
  run : σ → CheckOutcome

/-- Verdict of the pipeline: pass, or a denial attributed to a named check. -/
inductive Verdict where
  | pass
  | denial (check : String) (status : Nat) (detail : String)
  deriving DecidableEq, Repr

/-- Modelled from the spec: the AuthorizationPipeline's `run` — the ordered,
fail-fast execution of a check list that the web framework performs over a
dependency list (framework code, absent from src/).  Checks run strictly in
order; the first denial aborts the run.  The result records both the names of
the checks actually invoked and the verdict. -/
def runPipeline {σ : Type} (session : σ) : List (AuthCheck σ) → List String × Verdict
  | [] => ([], Verdict.pass)
  | c :: rest =>
    match c.run session with
    | CheckOutcome.deny status detail => ([c.name], Verdict.denial c.name status detail)
    | CheckOutcome.pass =>
      let r := runPipeline session rest
      (c.name :: r.1, r.2)

/-- Modelled from the spec: the effective check list of a protected operation
is process-wide ++ group-scoped ++ operation-scoped — the concatenation the
web framework performs over app-level, router-level and route-level
dependency lists (framework code, absent from src/). -/
def effectiveChecks {σ : Type} (processWide groupScoped operationScoped : List (AuthCheck σ)) :
    List (AuthCheck σ) :=
  processWide ++ groupScoped ++ operationScoped

/-! ### src/25globaldependences.py -/

namespace Lesson25

/-- The headers a request to lesson 25's application presents. -/
structure RequestHeaders where
  x_token : String
  x_key : String
  deriving DecidableEq, Repr

/-- Source `verify_token`: raises `HTTPException(400, "Invalid X-Token header")`
unless the X-Token header is the expected constant. -/
def verify_token (x_token : String) : Except HTTPExc Unit :=
  if x_token ≠ "fake-super-secret-token" then
    Except.error ⟨400, "Invalid X-Token header", false⟩
  else Except.ok ()

/-- Source `verify_key`: raises `HTTPException(400, "Invalid X-Key header")`
unless the X-Key header is the expected constant; returns the key value. -/
def verify_key (x_key : String) : Except HTTPExc String :=
  if x_key ≠ "fake-super-secret-key" then
    Except.error ⟨400, "Invalid X-Key header", false⟩
  else Except.ok x_key

/-- The check `Depends(verify_token)` contributes to the pipeline. -/
def verifyTokenCheck : AuthCheck RequestHeaders :=
  ⟨"verify_token", fun r =>
    match verify_token r.x_token with
    | Except.ok _ => CheckOutcome.pass
    | Except.error e => CheckOutcome.deny e.status e.detail⟩

/-- The check `Depends(verify_key)` contributes to the pipeline. -/
def verifyKeyCheck : AuthCheck RequestHeaders :=
  ⟨"verify_key", fun r =>
    match verify_key r.x_key with
    | Except.ok _ => CheckOutcome.pass
    | Except.error e => CheckOutcome.deny e.status e.detail⟩

/-- The process-wide dependency list of lesson 25:
`app = FastAPI(dependencies=[Depends(verify_token), Depends(verify_key)])`. -/
def appDependencies : List (AuthCheck RequestHeaders) := [verifyTokenCheck, verifyKeyCheck]

end Lesson25

/-! ### src/app/ — main_app.py, dependencies.py, routers/items.py -/

namespace AppPkg

/-- The credentials a request to the `app` package presents: the `token`
query parameter and the `X-Token` header. -/
structure AppRequest where
  token : String
  x_token : String
  deriving DecidableEq, Repr

/-- Source `get_token_header` (app/dependencies.py): raises
`HTTPException(400, "X-Token header invalid")` on a wrong X-Token header. -/
def get_token_header (x_token : String) : Except HTTPExc Unit :=
  if x_token ≠ "fake-super-secret-token" then
    Except.error ⟨400, "X-Token header invalid", false⟩
  else Except.ok ()

/-- Source `get_query_token` (app/dependencies.py): raises
`HTTPException(400, "No Jessica token provided")` unless `token=jessica`. -/
def get_query_token (token : String) : Except HTTPExc Unit :=
  if token ≠ "jessica" then
    Except.error ⟨400, "No Jessica token provided", false⟩
  else Except.ok ()

/-- The check `Depends(get_query_token)` contributes to the pipeline. -/
def getQueryTokenCheck : AuthCheck AppRequest :=
  ⟨"get_query_token", fun r =>
    match get_query_token r.token with
    | Except.ok _ => CheckOutcome.pass
    | Except.error e => CheckOutcome.deny e.status e.detail⟩

/-- The check `Depends(get_token_header)` contributes to the pipeline. -/
def getTokenHeaderCheck : AuthCheck AppRequest :=
  ⟨"get_token_header", fun r =>
    match get_token_header r.x_token with
    | Except.ok _ => CheckOutcome.pass
    | Except.error e => CheckOutcome.deny e.status e.detail⟩

/-- The process-wide dependency list declared by `create_application`:
`FastAPI(..., dependencies=[Depends(get_query_token)])`. -/
def applicationDependencies : List (AuthCheck AppRequest) := [getQueryTokenCheck]

/-- The group-scoped dependency list of the items router declared by
`create_items_router`: `APIRouter(prefix="/items", ...,
dependencies=[Depends(get_token_header)], ...)`. -/
def itemsRouterDependencies : List (AuthCheck AppRequest) := [getTokenHeaderCheck]

/-- The effective check list guarding `GET /items/` (`read_items`): the
operation declares no dependencies of its own. -/
def readItemsChecks : List (AuthCheck AppRequest) :=
  effectiveChecks applicationDependencies itemsRouterDependencies []

end AppPkg

/-! ### Supporting lemmas about the bcrypt model -/

/-- The salt run of a modelled hash is recovered exactly by `takeWhile`. -/
theorem takeWhile_replicate_append (n : Nat) (d : List Char) :
    ((List.replicate n 'a' ++ '$' :: d).takeWhile (fun c => c == 'a')) = List.replicate n 'a' := by
  induction n with
  | zero => simp [List.takeWhile]
  | succ n ih => simp [List.replicate, List.takeWhile, ih]

/-- Dropping the salt run of a modelled hash leaves the delimited digest. -/
theorem drop_replicate_append (n : Nat) (a : Char) (l : List Char) :
    (List.replicate n a ++ l).drop n = l := by
  induction n with
  | zero => simp
  | succ n ih => simp [List.replicate, ih]

/-- Parsing inverts the modelled `bcrypt.hashpw`: the embedded salt and digest
are recovered exactly. -/
theorem parseBcryptHash_hashpw (p : String) (salt : Nat) :
    parseBcryptHash (hashpw p salt) = some (salt, bcryptDigest p salt) := by
  show parseBcryptHash ⟨bcryptHeader ++ List.replicate salt 'a' ++ '$' :: bcryptDigest p salt⟩ = _
  unfold parseBcryptHash bcryptHeader
  simp only [List.cons_append, List.nil_append]
  rw [takeWhile_replicate_append, List.length_replicate, drop_replicate_append]
  rfl

/-- `bcrypt.checkpw` on a well-formed hash compares the recomputed digest
with the stored one. -/
theorem checkpw_hashpw (q p : String) (salt : Nat) :
    checkpw q (hashpw p salt) = Except.ok (bcryptDigest q salt == bcryptDigest p salt) := by
  unfold checkpw
  rw [parseBcryptHash_hashpw]

/-- Two modelled bcrypt hashes can only be equal as strings when they embed
the same salt. -/
theorem hashpw_salt_inj (p q : String) (s₁ s₂ : Nat) (h : hashpw p s₁ = hashpw q s₂) :
    s₁ = s₂ := by
  have h2 := congrArg parseBcryptHash h
  rw [parseBcryptHash_hashpw, parseBcryptHash_hashpw] at h2
  exact congrArg Prod.fst (Option.some.inj h2)

/-- The traced observation of `authenticate_user` returns the same result as
the plain embedding. -/
theorem authenticate_user_traced_fst (db : List (String × Lesson30.UserInDB))
    (username password : String) :
    (Lesson30.authenticate_user_traced db username password).1
      = Lesson30.authenticate_user db username password := by
  cases hu : Lesson30.get_user db username with
  | none => simp [Lesson30.authenticate_user_traced, Lesson30.authenticate_user, hu]
  | some user =>
    cases hp : user.hashed_password <;>
      simp [Lesson30.authenticate_user_traced, Lesson30.authenticate_user, hu, hp]

/-! ### The claims -/

/-- C1: authenticating with an identifier absent from the directory and
authenticating with a present identifier but a wrong secret return the very
same failure value from `authenticate_user` (`False`, modelled `none`), and
`login_for_access_token` turns both into the identical
`HTTPException(401, "Invalid credentials")` — nothing distinguishes unknown
user from wrong password. -/
theorem C1_uniform_authentication_failure
    (db : List (String × Lesson30.UserInDB)) (ghost realuser ghostpass wrongpass : String)
    (user : Lesson30.UserInDB) (h : String) (now : Int)
    (hghost : Lesson30.get_user db ghost = none)
    (hreal : Lesson30.get_user db realuser = some user)
    (hhash : user.hashed_password = some h)
    (hverify : Lesson30.verify_password wrongpass h = Except.ok false) :
    Lesson30.authenticate_user db ghost ghostpass = Except.ok none ∧
    Lesson30.authenticate_user db realuser wrongpass = Except.ok none ∧
    Lesson30.login_for_access_token db ghost ghostpass now
      = Except.error (Lesson30.AppFailure.http ⟨401, "Invalid credentials", true⟩) ∧
    Lesson30.login_for_access_token db realuser wrongpass now
      = Except.error (Lesson30.AppFailure.http ⟨401, "Invalid credentials", true⟩) := by
  have h1 : Lesson30.authenticate_user db ghost ghostpass = Except.ok none := by
    simp [Lesson30.authenticate_user, hghost]
  have h2 : Lesson30.authenticate_user db realuser wrongpass = Except.ok none := by
    simp [Lesson30.authenticate_user, hreal, hhash, hverify, Except.map]
  exact ⟨h1, h2, by simp [Lesson30.login_for_access_token, h1],
    by simp [Lesson30.login_for_access_token, h2]⟩

/-- Witness for C1 on the shipped directory: unknown user `ghost` and real
user `johndoe` with a wrong password produce identical failures. -/
theorem C1_uniform_authentication_failure_witness :
    Lesson30.authenticate_user Lesson30.fake_users_db "ghost" "whatever" = Except.ok none ∧
    Lesson30.authenticate_user Lesson30.fake_users_db "johndoe" "wrongpass" = Except.ok none ∧
    Lesson30.login_for_access_token Lesson30.fake_users_db "ghost" "whatever" 0
      = Except.error (Lesson30.AppFailure.http ⟨401, "Invalid credentials", true⟩) ∧
    Lesson30.login_for_access_token Lesson30.fake_users_db "johndoe" "wrongpass" 0
      = Except.error (Lesson30.AppFailure.http ⟨401, "Invalid credentials", true⟩) :=
  C1_uniform_authentication_failure Lesson30.fake_users_db "ghost" "johndoe" "whatever"
    "wrongpass" Lesson30.johndoe (hashpw "secret" 5) 0 (by decide) (by decide) (by decide)
    (by decide)

/-- C2: the pipeline executes checks strictly in order and fail-fast: when a
prefix of checks passes and the next check denies, the run invokes exactly
that prefix plus the failing check, attributes the denial to the failing
check, and never invokes any check after it — whatever those later checks
are. -/
theorem C2_pipeline_fail_fast (σ : Type) (session : σ)
    (pre : List (AuthCheck σ)) (c : AuthCheck σ) (post : List (AuthCheck σ))
    (status : Nat) (detail : String)
    (hpre : ∀ b ∈ pre, b.run session = CheckOutcome.pass)
    (hc : c.run session = CheckOutcome.deny status detail) :
    runPipeline session (pre ++ c :: post)
      = (pre.map (fun b => b.name) ++ [c.name], Verdict.denial c.name status detail) := by
  induction pre with
  | nil => simp [runPipeline, hc]
  | cons b bs ih =>
    have hb : b.run session = CheckOutcome.pass := hpre b (by simp)
    have hrest := ih (fun x hx => hpre x (by simp [hx]))
    simp [runPipeline, hb, hrest]

/-- Witness for C2 on lesson 25's process-wide list `[verify_token,
verify_key]`: with a bad X-Token the run denies at `verify_token` and
`verify_key` is never invoked. -/
theorem C2_pipeline_fail_fast_witness :
    runPipeline (⟨"wrong-token", "fake-super-secret-key"⟩ : Lesson25.RequestHeaders)
      Lesson25.appDependencies
      = (["verify_token"], Verdict.denial "verify_token" 400 "Invalid X-Token header") := by
  simpa using C2_pipeline_fail_fast Lesson25.RequestHeaders
    ⟨"wrong-token", "fake-super-secret-key"⟩ [] Lesson25.verifyTokenCheck
    [Lesson25.verifyKeyCheck] 400 "Invalid X-Token header" (by simp) (by decide)

/-- C3: verifying a secret against its own fresh hash succeeds on every call,
and two independent calls of `get_password_hash` (two distinct entropy draws
of `gensalt`) produce unequal hash strings, both of which verify against the
secret. -/
theorem C3_hash_verify_roundtrip (s : String) (e₁ e₂ : Nat) (hne : e₁ ≠ e₂) :
    Lesson30.verify_password s (Lesson30.get_password_hash s e₁) = Except.ok true ∧
    Lesson30.verify_password s (Lesson30.get_password_hash s e₂) = Except.ok true ∧
    Lesson30.get_password_hash s e₁ ≠ Lesson30.get_password_hash s e₂ := by
  refine ⟨?_, ?_, fun h => hne (hashpw_salt_inj s s (gensalt e₁) (gensalt e₂) h)⟩
  · show checkpw s (hashpw s (gensalt e₁)) = Except.ok true
    rw [checkpw_hashpw]
    simp
  · show checkpw s (hashpw s (gensalt e₂)) = Except.ok true
    rw [checkpw_hashpw]
    simp

/-- Witness for C3 at `"secret"` with entropy draws 0 and 1. -/
theorem C3_hash_verify_roundtrip_witness :
    Lesson30.verify_password "secret" (Lesson30.get_password_hash "secret" 0) = Except.ok true ∧
    Lesson30.verify_password "secret" (Lesson30.get_password_hash "secret" 1) = Except.ok true ∧
    Lesson30.get_password_hash "secret" 0 ≠ Lesson30.get_password_hash "secret" 1 :=
  C3_hash_verify_roundtrip "secret" 0 1 (by decide)

/-- C4: whatever inbound token and clock make `get_current_user` fail —
malformed token, bad signature, expired token, missing `sub` claim, or a
subject absent from the directory — the raised exception is always the same
`HTTPException(401, "Invalid authentication credentials")` with a Bearer
header, revealing nothing about which check failed. -/
theorem C4_uniform_token_denial (token : Jwt) (now : Int) (e : HTTPExc)
    (hfail : Lesson30.get_current_user token now = Except.error e) :
    e = ⟨401, "Invalid authentication credentials", true⟩ := by
  unfold Lesson30.get_current_user at hfail
  repeat' split at hfail
  all_goals first
    | (injection hfail with h; exact h.symm)
    | exact Except.noConfusion hfail

/-- Witness for C4 at a malformed token. -/
theorem C4_uniform_token_denial_witness :
    Lesson30.get_current_user (Jwt.malformed "nonsense") 0
      = Except.error ⟨401, "Invalid authentication credentials", true⟩ ∧
    (⟨401, "Invalid authentication credentials", true⟩ : HTTPExc)
      = ⟨401, "Invalid authentication credentials", true⟩ :=
  ⟨by decide, C4_uniform_token_denial (Jwt.malformed "nonsense") 0
    ⟨401, "Invalid authentication credentials", true⟩ (by decide)⟩

/-- C5 counterexample: for the identifier `ghost`, absent from the shipped
directory, `authenticate_user` returns the invalid-credentials failure while
making zero `verify_password` calls — no dummy-hash verification happens on
the not-found path, contrary to the claim. -/
theorem C5_counterexample :
    Lesson30.get_user Lesson30.fake_users_db "ghost" = none ∧
    (Lesson30.authenticate_user_traced Lesson30.fake_users_db "ghost" "whatever").2 = [] ∧
    Lesson30.authenticate_user Lesson30.fake_users_db "ghost" "whatever" = Except.ok none := by
  decide

/-- C5 (amended): for every identifier not present in the user directory,
`authenticate_user` returns the invalid-credentials failure directly,
performing no `verify_password` call at all — the not-found path does not
equalize its verification work with the found-but-wrong-password path. -/
theorem C5_not_found_performs_no_verify (db : List (String × Lesson30.UserInDB))
    (username password : String) (h : Lesson30.get_user db username = none) :
    Lesson30.authenticate_user_traced db username password = (Except.ok none, []) := by
  simp [Lesson30.authenticate_user_traced, h]

/-- Witness for the amended C5 at the shipped directory and `ghost`. -/
theorem C5_not_found_performs_no_verify_witness :
    Lesson30.authenticate_user_traced Lesson30.fake_users_db "ghost" "whatever"
      = (Except.ok none, []) :=
  C5_not_found_performs_no_verify Lesson30.fake_users_db "ghost" "whatever" (by decide)

/-- C6: evaluating the code at the failing input — `verify_password` on a
malformed hash propagates bcrypt's `ValueError("Invalid salt")` instead of
returning `False`, contradicting the function's own documented error
handling ("Returns False for malformed hashes", "Never raises exceptions"). -/
theorem C6_verify_password_raises_on_malformed_hash :
    Lesson30.verify_password "whatever" "not-a-bcrypt-hash"
      = Except.error PyError.valueErrorInvalidSalt := by
  decide

/-- C7: the checks guarding the items read operation are exactly the
process-wide query-token check followed by the group's header-token check
(process-wide ++ group ++ operation, here with no operation checks); the run
passes exactly when both tokens are right, a wrong query token denies at the
first check without ever invoking the header check, and a right query token
with a wrong header token denies at the second check. -/
theorem C7_scoped_composition (r : AppPkg.AppRequest) :
    AppPkg.readItemsChecks
      = AppPkg.applicationDependencies ++ AppPkg.itemsRouterDependencies ++ [] ∧
    AppPkg.readItemsChecks = [AppPkg.getQueryTokenCheck, AppPkg.getTokenHeaderCheck] ∧
    ((runPipeline r AppPkg.readItemsChecks).2 = Verdict.pass ↔
      (r.token = "jessica" ∧ r.x_token = "fake-super-secret-token")) ∧
    (r.token ≠ "jessica" →
      runPipeline r AppPkg.readItemsChecks
        = (["get_query_token"], Verdict.denial "get_query_token" 400 "No Jessica token provided")) ∧
    (r.token = "jessica" → r.x_token ≠ "fake-super-secret-token" →
      runPipeline r AppPkg.readItemsChecks
        = (["get_query_token", "get_token_header"],
            Verdict.denial "get_token_header" 400 "X-Token header invalid")) := by
  refine ⟨rfl, rfl, ?_, ?_, ?_⟩
  · by_cases h1 : r.token = "jessica" <;> by_cases h2 : r.x_token = "fake-super-secret-token" <;>
      simp [runPipeline, AppPkg.readItemsChecks, effectiveChecks, AppPkg.applicationDependencies,
        AppPkg.itemsRouterDependencies, AppPkg.getQueryTokenCheck, AppPkg.getTokenHeaderCheck,
        AppPkg.get_query_token, AppPkg.get_token_header, h1, h2]
  · intro h1
    simp [runPipeline, AppPkg.readItemsChecks, effectiveChecks, AppPkg.applicationDependencies,
      AppPkg.itemsRouterDependencies, AppPkg.getQueryTokenCheck, AppPkg.getTokenHeaderCheck,
      AppPkg.get_query_token, AppPkg.get_token_header, h1]
  · intro h1 h2
    simp [runPipeline, AppPkg.readItemsChecks, effectiveChecks, AppPkg.applicationDependencies,
      AppPkg.itemsRouterDependencies, AppPkg.getQueryTokenCheck, AppPkg.getTokenHeaderCheck,
      AppPkg.get_query_token, AppPkg.get_token_header, h1, h2]

/-- Witness for C7: with both tokens right the run passes; with a wrong query
token the run denies at `get_query_token` and the header check never runs. -/
theorem C7_scoped_composition_witness :
    (runPipeline (⟨"jessica", "fake-super-secret-token"⟩ : AppPkg.AppRequest)
      AppPkg.readItemsChecks).2 = Verdict.pass ∧
    runPipeline (⟨"nope", "fake-super-secret-token"⟩ : AppPkg.AppRequest) AppPkg.readItemsChecks
      = (["get_query_token"], Verdict.denial "get_query_token" 400 "No Jessica token provided") :=
  ⟨(C7_scoped_composition ⟨"jessica", "fake-super-secret-token"⟩).2.2.1.mpr (by decide),
    (C7_scoped_composition ⟨"nope", "fake-super-secret-token"⟩).2.2.2.1 (by decide)⟩

/-- C8: a token issued at time `t` with expiry `t + ttl` fails verification
with the expiry failure at every clock time strictly later than `t + ttl`:
`jwt.decode` raises ExpiredSignatureError and `get_current_user` denies — it
never verifies successfully after expiry. -/
theorem C8_expiry_monotonicity (sub : String) (ttl t tv : Int) (hlate : t + ttl < tv) :
    jwtDecode (Lesson30.create_access_token ⟨some sub, none⟩ (some ttl) t)
      Lesson30.SECRET_KEY [Lesson30.ALGORITHM] tv = Except.error JwtError.expiredSignature ∧
    Lesson30.get_current_user (Lesson30.create_access_token ⟨some sub, none⟩ (some ttl) t) tv
      = Except.error ⟨401, "Invalid authentication credentials", true⟩ := by
  have hd : jwtDecode (Lesson30.create_access_token ⟨some sub, none⟩ (some ttl) t)
      Lesson30.SECRET_KEY [Lesson30.ALGORITHM] tv = Except.error JwtError.expiredSignature := by
    simp [Lesson30.create_access_token, jwtEncode, jwtDecode,
      show t + ttl ≤ tv from le_of_lt hlate]
  exact ⟨hd, by simp [Lesson30.get_current_user, hd]⟩

/-- Witness for C8: issue at time 0 with a 1-second ttl, verify at time 2. -/
theorem C8_expiry_monotonicity_witness :
    jwtDecode (Lesson30.create_access_token ⟨some "johndoe", none⟩ (some 1) 0)
      Lesson30.SECRET_KEY [Lesson30.ALGORITHM] 2 = Except.error JwtError.expiredSignature ∧
    Lesson30.get_current_user (Lesson30.create_access_token ⟨some "johndoe", none⟩ (some 1) 0) 2
      = Except.error ⟨401, "Invalid authentication credentials", true⟩ :=
  C8_expiry_monotonicity "johndoe" 1 0 2 (by decide)

/-- C9: in lesson 29 the login endpoint issues the account's bare username as
the access token, token resolution is a direct directory lookup of the
presented string, and so presenting a directory username as the bearer token
authenticates as that account with no signature or expiry check. -/
theorem C9_username_is_the_token (username password : String) (u : Lesson29.UserInDB)
    (hu : Lesson29.get_user Lesson29.fake_users_db username = some u)
    (hp : Lesson29.fake_hash_password password = u.hashed_password) :
    Lesson29.login Lesson29.fake_users_db username password = Except.ok ⟨u.username, "bearer"⟩ ∧
    Lesson29.fake_decode_token username = some u ∧
    Lesson29.get_current_user username = Except.ok u := by
  refine ⟨?_, ?_, ?_⟩
  · simp [Lesson29.login, hu, hp]
  · simpa [Lesson29.fake_decode_token] using hu
  · simp [Lesson29.get_current_user, Lesson29.fake_decode_token, hu]

/-- Witness for C9: `johndoe`/`secret` logs in, the issued token is the
string `johndoe`, and that bare string authenticates as johndoe. -/
theorem C9_username_is_the_token_witness :
    Lesson29.login Lesson29.fake_users_db "johndoe" "secret" = Except.ok ⟨"johndoe", "bearer"⟩ ∧
    Lesson29.fake_decode_token "johndoe" = some Lesson29.johndoe ∧
    Lesson29.get_current_user "johndoe" = Except.ok Lesson29.johndoe :=
  C9_username_is_the_token "johndoe" "secret" Lesson29.johndoe (by decide) (by decide)

/-- C10: the active-account check of both lessons denies only when the
`disabled` field is Python-truthy, i.e. exactly `True`: any account whose
`disabled` is `None` (or `False`) passes and is treated as active. -/
theorem C10_disabled_truthiness (u30 : Lesson30.UserInDB) (u29 : Lesson29.UserInDB)
    (h30 : u30.disabled ≠ some true) (h29 : u29.disabled ≠ some true) :
    Lesson30.get_current_active_user u30 = Except.ok u30 ∧
    Lesson29.get_current_active_user u29 = Except.ok u29 := by
  have t30 : pythonTruthy u30.disabled = false := by
    cases hd : u30.disabled with
    | none => rfl
    | some b =>
      cases b with
      | false => rfl
      | true => exact absurd hd h30
  have t29 : pythonTruthy u29.disabled = false := by
    cases hd : u29.disabled with
    | none => rfl
    | some b =>
      cases b with
      | false => rfl
      | true => exact absurd hd h29
  exact ⟨by simp [Lesson30.get_current_active_user, t30],
    by simp [Lesson29.get_current_active_user, t29]⟩

/-- Witness for C10: accounts whose `disabled` field is `None` pass the
active-account check of both lessons. -/
theorem C10_disabled_truthiness_witness :
    Lesson30.get_current_active_user ⟨"bob", none, none, none, none⟩
      = Except.ok ⟨"bob", none, none, none, none⟩ ∧
    Lesson29.get_current_active_user ⟨"bob", none, none, none, "fakehashedpw"⟩
      = Except.ok ⟨"bob", none, none, none, "fakehashedpw"⟩ :=
  C10_disabled_truthiness ⟨"bob", none, none, none, none⟩
    ⟨"bob", none, none, none, "fakehashedpw"⟩ (by decide) (by decide)

end Spec2Proof
